import Mathlib

set_option linter.unusedVariables false

/-!
# Verification of the Kochi Guide bot (`main.py`)

A shallow embedding of the single source file `main.py` (phase 3, the
location-aware version): the two HTTP tool helpers `get_kochi_weather` and
`find_nearby_places`, the Telegram handlers `reset_command`,
`handle_location` and `handle_message`, and the module-level startup key
check.

Modelling conventions:
* JSON values are the inductive `Json`; Python numbers are rationals
  (the claims under study are structural, none depends on float rounding,
  and the textual rendering of a number by `json.dumps` or an f-string is
  abstracted to Lean's `toString` on `ℚ`).
* A Python expression that may raise is embedded in `Except PyExn`;
  `Except.error` models an exception propagating to the caller.
* The outcome of one `requests.get` / `raise_for_status()` / `.json()`
  sequence is the input `HttpResult`: `ok payload` when a non-error status
  arrived and the body parsed as JSON, `exn` when any
  `requests.exceptions.RequestException` was raised (connection failure,
  error status from `raise_for_status`, or a body that is not JSON —
  `requests` raises its own `JSONDecodeError`, a `RequestException`).
* Parsed JSON objects are association lists with distinct keys
  (`json.loads` produces a dict); lookup takes the first hit.
-/

inductive Json where
  | null
  | bool (b : Bool)
  | num (q : ℚ)
  | str (s : String)
  | arr (elements : List Json)
  | obj (fields : List (String × Json))

/-- Python exceptions that the embedded fragments can raise. -/
inductive PyExn where
  | keyError (k : String)
  | typeError
  | indexError
  | attributeError
deriving DecidableEq

/-- First-hit lookup in a parsed JSON object's field list (dict lookup). -/
def lookupField : List (String × Json) → String → Option Json
  | [], _ => none
  | (k, v) :: rest, key => if k = key then some v else lookupField rest key

/-- Python subscript `d[k]` with a string key: value for dicts, `KeyError`
when the key is missing, `TypeError` on any non-dict. -/
def Json.getItem : Json → String → Except PyExn Json
  | .obj kvs, k =>
    match lookupField kvs k with
    | some v => .ok v
    | none => .error (.keyError k)
  | _, k => .error (.typeError)

/-- Python subscript `x[i]` with an integer index: list element or
`IndexError`; a character of a string; `KeyError` on a parsed-JSON dict
(its keys are strings, so an integer key is absent); `TypeError`
otherwise. -/
def Json.getIdx : Json → Nat → Except PyExn Json
  | .arr xs, i =>
    match xs.get? i with
    | some v => .ok v
    | none => .error (.indexError)
  | .str s, i =>
    match s.toList.get? i with
    | some c => .ok (.str (String.mk [c]))
    | none => .error (.indexError)
  | .obj _, i => .error (.keyError (toString i))
  | _, _ => .error (.typeError)

/-- Python `d.get(k, default)`: only dicts have `.get`, anything else
raises `AttributeError`. -/
def Json.getD : Json → String → Json → Except PyExn Json
  | .obj kvs, k, dflt => .ok ((lookupField kvs k).getD dflt)
  | _, _, _ => .error (.attributeError)

/-- The key list of a JSON object (empty for non-objects). -/
def Json.keys : Json → List String
  | .obj kvs => kvs.map Prod.fst
  | _ => []

/-- Escaping of one string as `json.dumps` does it (quote and backslash; the control
characters, which never occur in the strings this program emits, are left
as they are). -/
def jsonEscape (s : String) : String :=
  String.join (s.toList.map (fun c =>
    if c = '\\' then "\\\\" else if c = '\"' then "\\\"" else String.mk [c]))

mutual

/-- Rendering of `json.dumps` with its default separators (`", "` and `": "`). -/
def Json.dumps : Json → String
  | .null => "null"
  | .bool true => "true"
  | .bool false => "false"
  | .num q => toString q
  | .str s => "\"" ++ jsonEscape s ++ "\""
  | .arr xs => "[" ++ dumpsElems xs ++ "]"
  | .obj kvs => "\x7b" ++ dumpsFields kvs ++ "\x7d"

/-- Comma-separated rendering of a JSON array's elements. -/
def dumpsElems : List Json → String
  | [] => ""
  | [x] => Json.dumps x
  | x :: y :: rest => Json.dumps x ++ ", " ++ dumpsElems (y :: rest)

/-- Comma-separated rendering of a JSON object's fields. -/
def dumpsFields : List (String × Json) → String
  | [] => ""
  | [(k, v)] => "\"" ++ jsonEscape k ++ "\": " ++ Json.dumps v
  | (k, v) :: kv :: rest =>
    "\"" ++ jsonEscape k ++ "\": " ++ Json.dumps v ++ ", " ++ dumpsFields (kv :: rest)

end

/-- Outcome of one `requests.get` + `raise_for_status()` + `.json()`
sequence, seen from inside the `try` block. -/
inductive HttpResult where
  | ok (payload : Json)
  | exn

/-- From `main.py` lines 31–44.  `get_kochi_weather()` takes no arguments; the
`HttpResult` parameter is the environment's answer to the single HTTP GET
issued inside the function.  Only `requests.exceptions.RequestException`
is caught; an exception raised while indexing into the parsed payload
propagates (`Except.error`). -/
def get_kochi_weather (r : HttpResult) : Except PyExn String :=
  match r with
  | .exn => .ok (Json.dumps (.obj [("error", .str "Could not fetch weather data.")]))
  | .ok data => do
    let temp ← (← data.getItem "main").getItem "temp"
    let humidity ← (← data.getItem "main").getItem "humidity"
    let description ← (← (← data.getItem "weather").getIdx 0).getItem "description"
    .ok (Json.dumps (.obj
      [("temperature", temp), ("humidity", humidity), ("description", description)]))

/-- The body of the `for place in …` loop in `find_nearby_places`:
`place.get("name")` (default `None`), `place.get("rating", "N/A")`,
`place.get("vicinity", "No address available")`. -/
def mapPlace (place : Json) : Except PyExn Json := do
  let name ← place.getD "name" Json.null
  let rating ← place.getD "rating" (Json.str "N/A")
  let address ← place.getD "vicinity" (Json.str "No address available")
  .ok (Json.obj [("name", name), ("rating", rating), ("address", address)])

/-- The `for` loop of `find_nearby_places`: build the summary list in
order, the first exception aborting the loop. -/
def mapPlaces : List Json → Except PyExn (List Json)
  | [] => .ok []
  | p :: ps => do
    let e ← mapPlace p
    let rest ← mapPlaces ps
    .ok (e :: rest)

/-- Python `x[:5]` followed by iteration: the first five list elements, the
first five characters of a string (each a one-character string), and
`TypeError` for anything else (slicing a dict, a number, a boolean or
`None` raises). -/
def pyIter5 : Json → Except PyExn (List Json)
  | .arr xs => .ok (xs.take 5)
  | .str s => .ok ((s.toList.take 5).map (fun c => Json.str (String.mk [c])))
  | _ => .error (.typeError)

/-- From `main.py` lines 47–76.  `find_nearby_places(latitude, longitude,
place_type)`; the `HttpResult` parameter is the environment's answer to
the single HTTP GET.  Only `RequestException` is caught. -/
def find_nearby_places (latitude longitude : ℚ) (place_type : String)
    (r : HttpResult) : Except PyExn String :=
  match r with
  | .exn => .ok (Json.dumps (.obj
      [("error", .str "Sorry, I could not find nearby places at the moment.")]))
  | .ok data => do
    let results ← data.getD "results" (Json.arr [])
    let items ← pyIter5 results
    let places ← mapPlaces items
    .ok (Json.dumps (.arr places))

/-- The query parameters of the places request (`main.py` lines 54–59):
fixed 1500 m radius, lower-cased type. -/
def find_nearby_places_params (latitude longitude : ℚ) (place_type key : String) :
    List (String × String) :=
  [("location", toString latitude ++ "," ++ toString longitude),
   ("radius", "1500"),
   ("type", place_type.toLower),
   ("key", key)]

/-!
## Telegram-side state and handlers

`context.user_data` is the per-user dict the bot framework supplies.  This
program only ever reads it through `.get`, writes single float values, and
empties it with `.clear()`; insertion order is never observed, so the dict
is modelled as a map from keys to optional rationals.
-/

/-- One user's `context.user_data`. -/
def UserData := String → Option ℚ

/-- Lookup `user_data.get(k)` (returns `None` when absent). -/
def UserData.get (d : UserData) (k : String) : Option ℚ := d k

/-- Assignment `user_data[k] = v`. -/
def UserData.set (d : UserData) (k : String) (v : ℚ) : UserData :=
  fun k2 => if k2 = k then some v else d k2

/-- Emptying `user_data.clear()`. -/
def UserData.clear (_ : UserData) : UserData := fun _ => none

/-- A fresh user's empty `user_data`. -/
def UserData.empty : UserData := fun _ => none

/-- The whole bot's per-user state: user identifier to `user_data`. -/
def BotState := Nat → UserData

/-- A shared-location update, `update.message.location`. -/
structure Location where
  latitude : ℚ
  longitude : ℚ

/-- A Python exception escaping a handler (only its message is observed,
via the log line). -/
structure PyError where
  msg : String
deriving DecidableEq

/-- From `main.py` lines 101–103: `/reset` clears the caller's `user_data` and
acknowledges. -/
def reset_command (ud : UserData) : UserData × String :=
  (UserData.clear ud, "Okay, let\x27s start a fresh conversation!")

/-- Reset lifted to the whole bot state: only the invoking user's
`user_data` is touched. -/
def resetUser (s : BotState) (uid : Nat) : BotState :=
  fun u => if u = uid then (reset_command (s u)).1 else s u

/-- From `main.py` lines 106–119: store the shared coordinates in `user_data`
and acknowledge. -/
def handle_location (loc : Location) (ud : UserData) : UserData × String :=
  ((ud.set "latitude" loc.latitude).set "longitude" loc.longitude,
   "Thanks, I\x27ve got your location! Now, what are you looking for near you? \n(e.g., \x27Find me a good cafe\x27 or \x27any ATMs nearby?\x27)")

/-- Location handling lifted to the whole bot state. -/
def locationUser (s : BotState) (uid : Nat) (loc : Location) : BotState :=
  fun u => if u = uid then (handle_location loc (s u)).1 else s u

/-- Python truthiness of `user_data.get(...)`: `None` and `0.0` are falsy,
every other float is truthy. -/
def truthy : Option ℚ → Bool
  | none => false
  | some q => if q = 0 then false else true

/-- Rendering of a `user_data.get` result inside the f-string (`None`
prints as `None`; float rendering abstracted to `toString`). -/
def optRepr : Option ℚ → String
  | none => "None"
  | some q => toString q

/-- From `main.py` lines 130–137: the prompt handed to the model — the raw
message text, or, when both stored coordinates are truthy, the text
wrapped in the location prefix. -/
def buildPrompt (lat lon : Option ℚ) (user_message : String) : String :=
  if truthy lat && truthy lon then
    "The user is at location (latitude=" ++ optRepr lat ++ ", longitude=" ++
      optRepr lon ++ ") and is asking: \x27" ++ user_message ++ "\x27"
  else
    user_message

/-- The environment's behaviour during one `handle_message` run: the
outcome of `context.bot.send_chat_action` (line 126, before the `try`
block) and of the model round trip
`start_chat`/`send_message_async`/`.text` (lines 139–141, inside it). -/
structure MsgEffects where
  chatAction : Except PyError Unit
  modelReply : Except PyError String

/-- What one `handle_message` run did, as observed from outside. -/
structure MsgOutcome where
  /-- The history the model chat session was created with, when one was
  created: `start_chat(enable_automatic_function_calling=True)` passes no
  history, so a created session always carries `[]`. -/
  sessionHistory : Option (List (String × String))
  /-- The prompt passed to `send_message_async`, when the call was made. -/
  promptSent : Option String
  /-- How many model round trips were attempted. -/
  modelCalls : Nat
  /-- The texts sent back to the user, in order. -/
  replies : List String
  /-- An exception escaping the handler, if any. -/
  raised : Option PyError

/-- The fixed apology of the `except` block (line 147). -/
def apology : String := "Sorry, an error occurred. Please try again."

/-- From `main.py` lines 122–147.  `send_chat_action` runs before the `try`
block, so its exception escapes; inside the `try` block the stored
coordinates are read, the prompt is built, a fresh chat session (empty
history) is started and the model is called once; any exception of the
`try` block is caught and answered with the fixed apology. -/
def handle_message (user_message : String) (ud : UserData) (eff : MsgEffects) :
    MsgOutcome :=
  match eff.chatAction with
  | .error e =>
    { sessionHistory := none, promptSent := none, modelCalls := 0,
      replies := [], raised := some e }
  | .ok _ =>
    let prompt := buildPrompt (ud.get "latitude") (ud.get "longitude") user_message
    match eff.modelReply with
    | .ok text =>
      { sessionHistory := some [], promptSent := some prompt, modelCalls := 1,
        replies := [text], raised := none }
    | .error _ =>
      { sessionHistory := some [], promptSent := some prompt, modelCalls := 1,
        replies := [apology], raised := none }

/-!
## Startup configuration check

`main.py` lines 18–25: the four `os.getenv` results are tested with
`all([...])`, i.e. Python truthiness — `None` (variable absent) and the
empty string both fail the check — and on failure the module calls
`exit()` before `main()` ever registers a handler.
-/

/-- The four `os.getenv` results (a variable yields `none` when absent). -/
structure EnvKeys where
  GEMINI_API_KEY : Option String
  TELEGRAM_BOT_TOKEN : Option String
  OPENWEATHER_API_KEY : Option String
  GOOGLE_PLACES_API_KEY : Option String
deriving DecidableEq

/-- Python truthiness of an `os.getenv` result. -/
def strTruthy : Option String → Bool
  | none => false
  | some s => if s = "" then false else true

/-- How far the process gets: `exit()` at import time, or running with the
handlers `main()` registered. -/
inductive StartupResult where
  | exited
  | running (handlers : List String)
deriving DecidableEq

/-- The handlers `main()` registers, in registration order
(lines 153–159). -/
def registeredHandlers : List String :=
  ["start_command", "reset_command", "handle_location", "handle_message"]

/-- Module import followed by `main()`: exit when
`not all([GEMINI_API_KEY, TELEGRAM_BOT_TOKEN, OPENWEATHER_API_KEY,
GOOGLE_PLACES_API_KEY])`, otherwise register the four handlers. -/
def startup (env : EnvKeys) : StartupResult :=
  if [env.GEMINI_API_KEY, env.TELEGRAM_BOT_TOKEN,
      env.OPENWEATHER_API_KEY, env.GOOGLE_PLACES_API_KEY].all strTruthy then
    .running registeredHandlers
  else
    .exited

/-- A sequence of location messages from one user, applied in order
(`handle_location` for each). -/
def applyLocations (ud : UserData) (locs : List Location) : UserData :=
  locs.foldl (fun d loc => (handle_location loc d).1) ud

/-- Effects of a `handle_message` run in which both the typing indicator
and the model round trip succeed. -/
def okEffects (reply : String) : MsgEffects :=
  ⟨Except.ok (), Except.ok reply⟩

/-!
## State-handling lemmas and claim theorems
-/

lemma userData_get_set_same (d : UserData) (k : String) (v : ℚ) :
    (d.set k v).get k = some v := by
  simp [UserData.get, UserData.set]

lemma userData_get_set_other (d : UserData) (k k2 : String) (v : ℚ) (h : k2 ≠ k) :
    (d.set k v).get k2 = d.get k2 := by
  simp [UserData.get, UserData.set, h]

lemma handle_location_stores (loc : Location) (ud : UserData) :
    ((handle_location loc ud).1).get "latitude" = some loc.latitude ∧
    ((handle_location loc ud).1).get "longitude" = some loc.longitude := by
  constructor
  · rw [handle_location]
    rw [userData_get_set_other _ _ _ _ (by decide)]
    exact userData_get_set_same _ _ _
  · exact userData_get_set_same _ _ _

/-- C5: `/reset` for any identifier empties that user's stored data, so a
subsequent lookup of `latitude` or `longitude` (or any other key) finds
nothing. -/
theorem reset_clears_user_data (s : BotState) (uid : Nat) :
    ((resetUser s uid) uid).get "latitude" = none ∧
    ((resetUser s uid) uid).get "longitude" = none ∧
    ∀ k, ((resetUser s uid) uid).get k = none := by
  refine ⟨?_, ?_, fun k => ?_⟩ <;>
    simp [resetUser, reset_command, UserData.clear, UserData.get]

/-- C7: user location storage is last-write-wins — after any sequence of
location messages the stored pair is the most recent message's
coordinates, whatever was stored before. -/
theorem location_last_write_wins (ud : UserData) (locs : List Location) (loc : Location) :
    (applyLocations ud (locs ++ [loc])).get "latitude" = some loc.latitude ∧
    (applyLocations ud (locs ++ [loc])).get "longitude" = some loc.longitude := by
  unfold applyLocations
  rw [List.foldl_append]
  exact handle_location_stores loc _

/-- C10: a stored latitude or longitude equal to exactly `0` fails the
truthiness test `if lat and lon:`, so the prompt handed to the model is
the raw message text with no coordinate prefix. -/
theorem zero_coordinate_treated_absent (ud : UserData) (msg : String) (eff : MsgEffects)
    (h : ud.get "latitude" = some 0 ∨ ud.get "longitude" = some 0)
    (ha : eff.chatAction = Except.ok ()) :
    (handle_message msg ud eff).promptSent = some msg := by
  have hp : buildPrompt (ud.get "latitude") (ud.get "longitude") msg = msg := by
    rcases h with h | h <;> rw [buildPrompt, h] <;>
      simp [truthy]
  unfold handle_message
  rw [ha]
  cases hm : eff.modelReply <;> simp [hp]

theorem zero_coordinate_treated_absent_witness :
    ((UserData.empty.set "latitude" 0).set "longitude" 76).get "latitude" = some 0 ∧
    (handle_message "any cafes?" ((UserData.empty.set "latitude" 0).set "longitude" 76)
      (okEffects "reply")).promptSent = some "any cafes?" :=
  ⟨by decide,
   zero_coordinate_treated_absent _ _ _ (Or.inl (by decide)) rfl⟩

/-- C4 counterexample: the user shares location `(0, 76)` (a point on the
equator); the coordinates are stored faithfully, yet the next text message
is forwarded raw, without the coordinate prefix the claim promises. -/
theorem location_zero_latitude_counterexample :
    ((handle_location ⟨0, 76⟩ UserData.empty).1).get "latitude" = some 0 ∧
    ((handle_location ⟨0, 76⟩ UserData.empty).1).get "longitude" = some 76 ∧
    (handle_message "any ATMs nearby?" ((handle_location ⟨0, 76⟩ UserData.empty).1)
      (okEffects "Sure!")).promptSent = some "any ATMs nearby?" := by
  refine ⟨by decide, by decide, by decide⟩

/-- C4 amended: after a location message whose latitude and longitude are
both nonzero, the stored coordinates equal the message's, and the next
text message (whose typing-indicator call succeeds) is forwarded with the
coordinate-prefixed prompt instead of the raw text. -/
theorem location_prefix_amended (loc : Location) (ud : UserData) (msg : String)
    (eff : MsgEffects)
    (hlat : loc.latitude ≠ 0) (hlon : loc.longitude ≠ 0)
    (ha : eff.chatAction = Except.ok ()) :
    ((handle_location loc ud).1).get "latitude" = some loc.latitude ∧
    ((handle_location loc ud).1).get "longitude" = some loc.longitude ∧
    (handle_message msg ((handle_location loc ud).1) eff).promptSent =
      some ("The user is at location (latitude=" ++ toString loc.latitude ++
        ", longitude=" ++ toString loc.longitude ++ ") and is asking: \x27" ++
        msg ++ "\x27") := by
  obtain ⟨h1, h2⟩ := handle_location_stores loc ud
  refine ⟨h1, h2, ?_⟩
  have hp : buildPrompt (((handle_location loc ud).1).get "latitude")
      (((handle_location loc ud).1).get "longitude") msg =
      "The user is at location (latitude=" ++ toString loc.latitude ++
        ", longitude=" ++ toString loc.longitude ++ ") and is asking: \x27" ++
        msg ++ "\x27" := by
    rw [buildPrompt, h1, h2]
    simp [truthy, hlat, hlon, optRepr]
  unfold handle_message
  rw [ha]
  cases hm : eff.modelReply <;> simp [hp]

theorem location_prefix_amended_witness :
    ((10 : ℚ) ≠ 0) ∧ ((76 : ℚ) ≠ 0) ∧
    (handle_message "find cafes" ((handle_location ⟨10, 76⟩ UserData.empty).1)
      (okEffects "ok")).promptSent =
      some ("The user is at location (latitude=" ++ toString (10 : ℚ) ++
        ", longitude=" ++ toString (76 : ℚ) ++ ") and is asking: \x27" ++
        "find cafes" ++ "\x27") :=
  ⟨by norm_num, by norm_num,
   (location_prefix_amended ⟨10, 76⟩ UserData.empty "find cafes" (okEffects "ok")
     (by norm_num) (by norm_num) rfl).2.2⟩

/-- C9 counterexample: the typing-indicator call
`context.bot.send_chat_action` (line 126) sits before the `try` block; if
it raises, the exception escapes the handler and the user receives no
apology reply. -/
theorem chat_action_exception_counterexample :
    (handle_message "hi" UserData.empty
      ⟨Except.error ⟨"network down"⟩, Except.ok "hello"⟩).raised =
        some ⟨"network down"⟩ ∧
    (handle_message "hi" UserData.empty
      ⟨Except.error ⟨"network down"⟩, Except.ok "hello"⟩).replies = [] :=
  ⟨rfl, rfl⟩

/-- C9 amended: an exception raised inside the `try` block (here: the
model round trip) is caught at the block's boundary and answered with the
fixed apology, with no retry (exactly one model call) and nothing
propagated; only the typing-indicator call, which precedes the `try`
block, can leak an exception. -/
theorem handler_catch_amended (msg : String) (ud : UserData) (eff : MsgEffects)
    (e : PyError)
    (ha : eff.chatAction = Except.ok ()) (hm : eff.modelReply = Except.error e) :
    (handle_message msg ud eff).replies = [apology] ∧
    (handle_message msg ud eff).raised = none ∧
    (handle_message msg ud eff).modelCalls = 1 := by
  unfold handle_message
  rw [ha, hm]
  exact ⟨rfl, rfl, rfl⟩

theorem handler_catch_amended_witness :
    (handle_message "hello" UserData.empty
      ⟨Except.ok (), Except.error ⟨"boom"⟩⟩).replies = [apology] ∧
    (handle_message "hello" UserData.empty
      ⟨Except.ok (), Except.error ⟨"boom"⟩⟩).raised = none ∧
    (handle_message "hello" UserData.empty
      ⟨Except.ok (), Except.error ⟨"boom"⟩⟩).modelCalls = 1 :=
  handler_catch_amended "hello" UserData.empty
    ⟨Except.ok (), Except.error ⟨"boom"⟩⟩ ⟨"boom"⟩ rfl rfl

/-- C6 counterexample: after a first exchange completes, the very next
message still gets a model session seeded with the empty history —
`start_chat(enable_automatic_function_calling=True)` passes no prior
turns, and the program keeps no history store at all (the per-user state
only ever holds coordinates). -/
theorem fresh_session_counterexample :
    (handle_message "Tell me about Fort Kochi." UserData.empty
      (okEffects "It is historic.")).replies = ["It is historic."] ∧
    (handle_message "What about its weather?" UserData.empty
      (okEffects "Humid.")).sessionHistory = some [] :=
  ⟨rfl, rfl⟩

/-- C6 amended: every message for which the typing-indicator call succeeds
starts a fresh model SDK session seeded with the empty history; no
conversation state is read into it. -/
theorem fresh_session_amended (msg : String) (ud : UserData) (eff : MsgEffects)
    (ha : eff.chatAction = Except.ok ()) :
    (handle_message msg ud eff).sessionHistory = some [] := by
  unfold handle_message
  rw [ha]
  cases hm : eff.modelReply <;> rfl

theorem fresh_session_amended_witness :
    (handle_message "hi" UserData.empty (okEffects "hello")).sessionHistory =
      some [] :=
  fresh_session_amended "hi" UserData.empty (okEffects "hello") rfl

/-- C8 counterexample: with all four keys present in the environment but
`GEMINI_API_KEY` set to the empty string, `all([...])` is false and the
process exits instead of proceeding. -/
theorem startup_empty_key_counterexample :
    (EnvKeys.mk (some "") (some "token") (some "wkey") (some "pkey")).GEMINI_API_KEY.isSome = true ∧
    (EnvKeys.mk (some "") (some "token") (some "wkey") (some "pkey")).TELEGRAM_BOT_TOKEN.isSome = true ∧
    (EnvKeys.mk (some "") (some "token") (some "wkey") (some "pkey")).OPENWEATHER_API_KEY.isSome = true ∧
    (EnvKeys.mk (some "") (some "token") (some "wkey") (some "pkey")).GOOGLE_PLACES_API_KEY.isSome = true ∧
    startup (EnvKeys.mk (some "") (some "token") (some "wkey") (some "pkey")) =
      StartupResult.exited :=
  ⟨rfl, rfl, rfl, rfl, rfl⟩

/-- C8 amended: if any of the four keys is absent (or present but empty,
which Python truthiness treats the same), the process exits before any
handler is registered; if all four are present and non-empty it proceeds
and registers the handlers. -/
theorem startup_check_amended (env : EnvKeys) :
    ((env.GEMINI_API_KEY = none ∨ env.GEMINI_API_KEY = some "" ∨
      env.TELEGRAM_BOT_TOKEN = none ∨ env.TELEGRAM_BOT_TOKEN = some "" ∨
      env.OPENWEATHER_API_KEY = none ∨ env.OPENWEATHER_API_KEY = some "" ∨
      env.GOOGLE_PLACES_API_KEY = none ∨ env.GOOGLE_PLACES_API_KEY = some "") →
      startup env = StartupResult.exited) ∧
    (∀ a b c d : String, env = ⟨some a, some b, some c, some d⟩ →
      a ≠ "" → b ≠ "" → c ≠ "" → d ≠ "" →
      startup env = StartupResult.running registeredHandlers) := by
  constructor
  · intro h
    rcases env with ⟨k1, k2, k3, k4⟩
    rcases h with h | h | h | h | h | h | h | h <;> (simp only at h; subst h) <;>
      simp [startup, strTruthy]
  · rintro a b c d rfl ha hb hc hd
    simp [startup, strTruthy, ha, hb, hc, hd]

theorem startup_check_amended_witness :
    startup ⟨none, some "t", some "w", some "p"⟩ = StartupResult.exited ∧
    startup ⟨some "g", some "", some "w", some "p"⟩ = StartupResult.exited ∧
    startup ⟨some "g", some "t", some "w", some "p"⟩ =
      StartupResult.running registeredHandlers :=
  ⟨(startup_check_amended _).1 (Or.inl rfl),
   (startup_check_amended _).1 (Or.inr (Or.inr (Or.inr (Or.inl rfl)))),
   (startup_check_amended _).2 "g" "t" "w" "p" rfl
     (by decide) (by decide) (by decide) (by decide)⟩

/-!
## Tool-helper lemmas and claim theorems
-/

lemma exceptOk_bind {α β ε : Type} (a : α) (f : α → Except ε β) :
    (Except.ok a : Except ε α) >>= f = f a := rfl

lemma exceptErr_bind {α β ε : Type} (e : ε) (f : α → Except ε β) :
    (Except.error e : Except ε α) >>= f = Except.error e := rfl

lemma getItem_obj_ok_iff (kvs : List (String × Json)) (k : String) (v : Json) :
    (Json.obj kvs).getItem k = Except.ok v ↔ lookupField kvs k = some v := by
  rw [Json.getItem]
  cases h : lookupField kvs k <;> simp

lemma weather_ok_eq (data mainv weather w0 tv hv dv : Json)
    (h1 : data.getItem "main" = Except.ok mainv)
    (h2 : mainv.getItem "temp" = Except.ok tv)
    (h3 : mainv.getItem "humidity" = Except.ok hv)
    (h4 : data.getItem "weather" = Except.ok weather)
    (h5 : weather.getIdx 0 = Except.ok w0)
    (h6 : w0.getItem "description" = Except.ok dv) :
    get_kochi_weather (HttpResult.ok data) = Except.ok (Json.dumps (Json.obj
      [("temperature", tv), ("humidity", hv), ("description", dv)])) := by
  simp only [get_kochi_weather, h1, h2, h3, h4, h5, h6, exceptOk_bind]

/-- How one output entry of `find_nearby_places` relates to the provider's
result it was built from: exactly the three keys `name`, `rating`,
`address`, each equal to the provider's `name`/`rating`/`vicinity`
whenever the provider entry carries that field. -/
def PlaceEntryMatches (r e : Json) : Prop :=
  Json.keys e = ["name", "rating", "address"] ∧
  (∀ v, r.getItem "name" = Except.ok v → e.getItem "name" = Except.ok v) ∧
  (∀ v, r.getItem "rating" = Except.ok v → e.getItem "rating" = Except.ok v) ∧
  (∀ v, r.getItem "vicinity" = Except.ok v → e.getItem "address" = Except.ok v)

lemma mapPlace_obj (kvs : List (String × Json)) :
    mapPlace (Json.obj kvs) = Except.ok (Json.obj
      [("name", (lookupField kvs "name").getD Json.null),
       ("rating", (lookupField kvs "rating").getD (Json.str "N/A")),
       ("address", (lookupField kvs "vicinity").getD (Json.str "No address available"))]) :=
  rfl

lemma mapPlace_matches (r : Json) (kvs : List (String × Json)) (hr : r = Json.obj kvs) :
    ∃ e, mapPlace r = Except.ok e ∧ PlaceEntryMatches r e := by
  subst hr
  refine ⟨_, mapPlace_obj kvs, rfl, ?_, ?_, ?_⟩ <;>
    intro v hv <;>
    rw [getItem_obj_ok_iff] at hv ⊢ <;>
    simp [lookupField, hv]

lemma mapPlaces_spec (l : List Json) (h : ∀ r ∈ l, ∃ kvs, r = Json.obj kvs) :
    ∃ es, mapPlaces l = Except.ok es ∧ es.length = l.length ∧
      ∀ (i : Nat) (r e : Json), l[i]? = some r → es[i]? = some e → PlaceEntryMatches r e := by
  induction l with
  | nil =>
    refine ⟨[], rfl, rfl, ?_⟩
    intro i r e h1 h2
    simp at h1
  | cons p ps ih =>
    obtain ⟨kvs, hp⟩ := h p (List.mem_cons_self p ps)
    obtain ⟨e0, he0, hm⟩ := mapPlace_matches p kvs hp
    obtain ⟨es, hes, hlen, hidx⟩ := ih (fun r hr => h r (List.mem_cons_of_mem p hr))
    refine ⟨e0 :: es, ?_, by simp [hlen], ?_⟩
    · simp [mapPlaces, he0, hes, exceptOk_bind]
    · intro i r e h1 h2
      cases i with
      | zero =>
        simp only [List.getElem?_cons_zero, Option.some.injEq] at h1 h2
        subst h1; subst h2
        exact hm
      | succ n =>
        simp only [List.getElem?_cons_succ] at h1 h2
        exact hidx n r e h1 h2

lemma find_nearby_places_spec (lat lon : ℚ) (pt : String) (data : Json)
    (rs : List Json)
    (h1 : data.getD "results" (Json.arr []) = Except.ok (Json.arr rs))
    (h2 : ∀ r ∈ rs, ∃ kvs, r = Json.obj kvs) :
    ∃ es, find_nearby_places lat lon pt (HttpResult.ok data) =
        Except.ok (Json.dumps (Json.arr es)) ∧
      es.length = min 5 rs.length ∧
      ∀ (i : Nat) (r e : Json), rs[i]? = some r → es[i]? = some e → PlaceEntryMatches r e := by
  obtain ⟨es, hes, hlen, hidx⟩ := mapPlaces_spec (rs.take 5)
    (fun r hr => h2 r (List.take_subset 5 rs hr))
  refine ⟨es, ?_, ?_, ?_⟩
  · simp only [find_nearby_places, h1, exceptOk_bind, pyIter5, hes]
  · rw [hlen, List.length_take]
  · intro i r e hr he
    have hi : i < es.length := by
      rcases List.getElem?_eq_some.mp he with ⟨hlt, -⟩
      exact hlt
    have hi5 : i < 5 := by
      rw [hlen, List.length_take] at hi
      omega
    exact hidx i r e (by rw [List.getElem?_take_of_lt hi5]; exact hr) he

/-- C1: for every successfully received places response (an object whose
`results` field is a list of place objects), `find_nearby_places` returns
the JSON encoding of a list of at most 5 entries — the first
`min 5 |results|` of them, in order — each carrying exactly the keys
`name`, `rating`, `address`, drawn from the provider's
`name`/`rating`/`vicinity` fields. -/
theorem find_nearby_places_maps_results (lat lon : ℚ) (pt : String) (data : Json)
    (rs : List Json)
    (h1 : data.getD "results" (Json.arr []) = Except.ok (Json.arr rs))
    (h2 : ∀ r ∈ rs, ∃ kvs, r = Json.obj kvs) :
    ∃ es, find_nearby_places lat lon pt (HttpResult.ok data) =
        Except.ok (Json.dumps (Json.arr es)) ∧
      es.length ≤ 5 ∧
      es.length = min 5 rs.length ∧
      ∀ (i : Nat) (r e : Json), rs[i]? = some r → es[i]? = some e → PlaceEntryMatches r e := by
  obtain ⟨es, hok, hlen, hidx⟩ := find_nearby_places_spec lat lon pt data rs h1 h2
  exact ⟨es, hok, by omega, hlen, hidx⟩

/-- A concrete places payload: seven results, so the output must stop at
five. -/
def wPlaces : List Json :=
  [Json.obj [("name", Json.str "Cafe A"), ("rating", Json.num 4), ("vicinity", Json.str "MG Road")],
   Json.obj [("name", Json.str "Cafe B")],
   Json.obj [("name", Json.str "Cafe C"), ("rating", Json.num 5)],
   Json.obj [("name", Json.str "Cafe D"), ("vicinity", Json.str "Fort Kochi")],
   Json.obj [("name", Json.str "Cafe E")],
   Json.obj [("name", Json.str "Cafe F")],
   Json.obj [("name", Json.str "Cafe G")]]

theorem find_nearby_places_maps_results_witness :
    (Json.obj [("results", Json.arr wPlaces)]).getD "results" (Json.arr []) =
      Except.ok (Json.arr wPlaces) ∧
    (∀ r ∈ wPlaces, ∃ kvs, r = Json.obj kvs) ∧
    ∃ es, find_nearby_places 10 76 "cafe"
        (HttpResult.ok (Json.obj [("results", Json.arr wPlaces)])) =
        Except.ok (Json.dumps (Json.arr es)) ∧
      es.length ≤ 5 ∧
      es.length = min 5 wPlaces.length ∧
      ∀ (i : Nat) (r e : Json), wPlaces[i]? = some r → es[i]? = some e → PlaceEntryMatches r e :=
  ⟨rfl,
   by intro r hr; simp only [wPlaces, List.mem_cons, List.not_mem_nil, or_false] at hr
      rcases hr with rfl | rfl | rfl | rfl | rfl | rfl | rfl <;> exact ⟨_, rfl⟩,
   find_nearby_places_maps_results 10 76 "cafe" (Json.obj [("results", Json.arr wPlaces)])
     wPlaces rfl
     (by intro r hr; simp only [wPlaces, List.mem_cons, List.not_mem_nil, or_false] at hr
         rcases hr with rfl | rfl | rfl | rfl | rfl | rfl | rfl <;> exact ⟨_, rfl⟩)⟩

/-- C2: the weather helper takes no arguments beyond the environment's
HTTP outcome; on a successful response whose payload carries
`main.temp`, `main.humidity` and `weather[0].description` it returns the
JSON encoding of an object with exactly those three fields, and on any
request exception it returns the JSON error object. -/
theorem get_kochi_weather_shape (data mainv weather w0 tv hv dv : Json)
    (h1 : data.getItem "main" = Except.ok mainv)
    (h2 : mainv.getItem "temp" = Except.ok tv)
    (h3 : mainv.getItem "humidity" = Except.ok hv)
    (h4 : data.getItem "weather" = Except.ok weather)
    (h5 : weather.getIdx 0 = Except.ok w0)
    (h6 : w0.getItem "description" = Except.ok dv) :
    (∃ j, get_kochi_weather (HttpResult.ok data) = Except.ok (Json.dumps j) ∧
      j.keys = ["temperature", "humidity", "description"] ∧
      j.getItem "temperature" = Except.ok tv ∧
      j.getItem "humidity" = Except.ok hv ∧
      j.getItem "description" = Except.ok dv) ∧
    get_kochi_weather HttpResult.exn =
      Except.ok (Json.dumps (Json.obj
        [("error", Json.str "Could not fetch weather data.")])) := by
  refine ⟨⟨Json.obj [("temperature", tv), ("humidity", hv), ("description", dv)],
    weather_ok_eq data mainv weather w0 tv hv dv h1 h2 h3 h4 h5 h6,
    rfl, rfl, rfl, rfl⟩, rfl⟩

/-- A concrete well-formed weather payload. -/
def wMain : Json := Json.obj [("temp", Json.num 30), ("humidity", Json.num 83)]

/-- The first element of the concrete payload's `weather` list. -/
def wDesc : Json := Json.obj [("description", Json.str "light rain")]

/-- A concrete successful weather response body. -/
def wWeatherPayload : Json :=
  Json.obj [("main", wMain), ("weather", Json.arr [wDesc])]

theorem get_kochi_weather_shape_witness :
    wWeatherPayload.getItem "main" = Except.ok wMain ∧
    wMain.getItem "temp" = Except.ok (Json.num 30) ∧
    (∃ j, get_kochi_weather (HttpResult.ok wWeatherPayload) = Except.ok (Json.dumps j) ∧
      j.keys = ["temperature", "humidity", "description"] ∧
      j.getItem "temperature" = Except.ok (Json.num 30) ∧
      j.getItem "humidity" = Except.ok (Json.num 83) ∧
      j.getItem "description" = Except.ok (Json.str "light rain")) ∧
    get_kochi_weather HttpResult.exn =
      Except.ok (Json.dumps (Json.obj
        [("error", Json.str "Could not fetch weather data.")])) :=
  ⟨rfl, rfl,
   (get_kochi_weather_shape wWeatherPayload wMain (Json.arr [wDesc]) wDesc
     (Json.num 30) (Json.num 83) (Json.str "light rain")
     rfl rfl rfl rfl rfl rfl).1,
   (get_kochi_weather_shape wWeatherPayload wMain (Json.arr [wDesc]) wDesc
     (Json.num 30) (Json.num 83) (Json.str "light rain")
     rfl rfl rfl rfl rfl rfl).2⟩

/-- C3 counterexample: a successful HTTP response whose JSON body is the
empty object makes `get_kochi_weather` raise an uncaught `KeyError` —
only `requests.exceptions.RequestException` is caught, so the helper does
not return a JSON string. -/
theorem weather_raises_on_malformed_payload :
    get_kochi_weather (HttpResult.ok (Json.obj [])) =
      Except.error (PyExn.keyError "main") :=
  rfl

/-- C3 amended: every request-level failure is caught and converted to the
JSON error payload, and on successful responses with the providers'
payload shapes both helpers return JSON strings; a successful response
with an unexpected payload shape, however, can raise out of a helper
(see the counterexample). -/
theorem helpers_return_json_amended (lat lon : ℚ) (pt : String)
    (wdata mainv weather w0 tv hv dv pdata : Json) (rs : List Json)
    (hw1 : wdata.getItem "main" = Except.ok mainv)
    (hw2 : mainv.getItem "temp" = Except.ok tv)
    (hw3 : mainv.getItem "humidity" = Except.ok hv)
    (hw4 : wdata.getItem "weather" = Except.ok weather)
    (hw5 : weather.getIdx 0 = Except.ok w0)
    (hw6 : w0.getItem "description" = Except.ok dv)
    (hp1 : pdata.getD "results" (Json.arr []) = Except.ok (Json.arr rs))
    (hp2 : ∀ r ∈ rs, ∃ kvs, r = Json.obj kvs) :
    (∃ s, get_kochi_weather (HttpResult.ok wdata) = Except.ok s) ∧
    (∃ s, find_nearby_places lat lon pt (HttpResult.ok pdata) = Except.ok s) ∧
    get_kochi_weather HttpResult.exn =
      Except.ok (Json.dumps (Json.obj
        [("error", Json.str "Could not fetch weather data.")])) ∧
    find_nearby_places lat lon pt HttpResult.exn =
      Except.ok (Json.dumps (Json.obj
        [("error", Json.str "Sorry, I could not find nearby places at the moment.")])) := by
  obtain ⟨es, hes, -, -⟩ := find_nearby_places_spec lat lon pt pdata rs hp1 hp2
  exact ⟨⟨_, weather_ok_eq wdata mainv weather w0 tv hv dv hw1 hw2 hw3 hw4 hw5 hw6⟩,
    ⟨_, hes⟩, rfl, rfl⟩

theorem helpers_return_json_amended_witness :
    (∃ s, get_kochi_weather (HttpResult.ok wWeatherPayload) = Except.ok s) ∧
    (∃ s, find_nearby_places 10 76 "cafe"
      (HttpResult.ok (Json.obj [("results", Json.arr wPlaces)])) = Except.ok s) ∧
    get_kochi_weather HttpResult.exn =
      Except.ok (Json.dumps (Json.obj
        [("error", Json.str "Could not fetch weather data.")])) ∧
    find_nearby_places 10 76 "cafe" HttpResult.exn =
      Except.ok (Json.dumps (Json.obj
        [("error", Json.str "Sorry, I could not find nearby places at the moment.")])) :=
  helpers_return_json_amended 10 76 "cafe" wWeatherPayload wMain (Json.arr [wDesc])
    wDesc (Json.num 30) (Json.num 83) (Json.str "light rain")
    (Json.obj [("results", Json.arr wPlaces)]) wPlaces
    rfl rfl rfl rfl rfl rfl rfl
    (by intro r hr; simp only [wPlaces, List.mem_cons, List.not_mem_nil, or_false] at hr
        rcases hr with rfl | rfl | rfl | rfl | rfl | rfl | rfl <;> exact ⟨_, rfl⟩)
